import Mathlib

/-!
# Verification of the Taiga StoryDetail E2E suite and the PendingMembers module

Shallow embedding of two source files of the repository:

* the Cypress end-to-end suite `StoryDetail` (scenarios: update status,
  edit title, edit title cancel, edit title conflict dismiss, edit title
  conflict copy, delete story, plus the suite-level `before` fixture hook);
* the Angular `PendingMembersModule` declaration.

The test script itself (its ordering of clicks, its promise chains, the
`before` hook's catch structure) is embedded directly from the source.
The application under test (the story-detail editor, the optimistic
concurrency conflict engine, the kanban board) is not part of the source
tree, so its behaviour is modelled from the specification where a claim
needs it; those definitions say so in their doc comments.
-/

namespace Taiga

/-- A single observable event emitted while a test scenario runs: UI clicks,
typing, out-of-band HTTP request lifecycle events, DOM assertions, and
console error logging. -/
inductive Ev where
  | click (sel : String)
  | typeText (sel : String) (text : String)
  | requestStart (name : String)
  | requestResolved (name : String)
  | requestRejected (name : String)
  | assertContains (sel : String) (text : String)
  | consoleError (msg : String)
  deriving DecidableEq, Repr

/-- Event trace of the `edit title conflict dismiss` test case, translated
from the source: open the editor, type the local title, fire the
out-of-band `updateStoryRequest`; the `.then` branch (request resolved)
clicks save, see-new-version, dismiss and asserts the detail title contains
the conflicting title; the `.catch` branch (request rejected) only logs
`updateStoryRequest error` to the console. -/
def conflictDismissTrace (newTitle conflictTitle : String)
    (requestOk : Bool) : List Ev :=
  [Ev.click "edit-title",
   Ev.typeText "edit-title-textarea" newTitle,
   Ev.requestStart "updateStoryRequest"] ++
  (if requestOk then
    [Ev.requestResolved "updateStoryRequest",
     Ev.click "edit-title-save",
     Ev.click "see-new-version",
     Ev.click "dismiss",
     Ev.assertContains "story-detail-title" conflictTitle]
  else
    [Ev.requestRejected "updateStoryRequest",
     Ev.consoleError "updateStoryRequest error"])

/-- Event trace of the `edit title conflict copy` test case, translated from
the source: same conflict setup, but the `.then` branch clicks save,
copy-title, see-new-version and then asserts on the conflicting title;
the `.catch` branch only logs. -/
def conflictCopyTrace (newTitle conflictTitle : String)
    (requestOk : Bool) : List Ev :=
  [Ev.click "edit-title",
   Ev.typeText "edit-title-textarea" newTitle,
   Ev.requestStart "updateStoryRequest"] ++
  (if requestOk then
    [Ev.requestResolved "updateStoryRequest",
     Ev.click "edit-title-save",
     Ev.click "copy-title",
     Ev.click "see-new-version",
     Ev.assertContains "story-detail-title" conflictTitle]
  else
    [Ev.requestRejected "updateStoryRequest",
     Ev.consoleError "updateStoryRequest error"])

/-- Outcome of one fixture-creation HTTP request in the `before` hook:
either a resolved promise or a rejection carrying an error message. -/
abbrev ReqOutcome := Except String Unit

/-- Observable result of running the suite-level `before` hook: which
requests were attempted (in order), what the outer `.catch(console.error)`
logged, which promise rejections were left unhandled (the inner promises
are discarded with `void` and have no rejection handler), whether the
`project` and `story` suite variables were assigned, and whether the hook
callback itself rejected. -/
structure SetupRun where
  attempts : List String
  logs : List String
  unhandled : List String
  projectSet : Bool
  storySet : Bool
  hookRejected : Bool
  deriving DecidableEq, Repr

/-- The suite-level `before` hook, translated from the source with JS
promise semantics made explicit.  The chain is
`createWorkspaceRequest(..).then(cb).catch(console.error)` where `cb`
runs `void createFullProjectInWSRequest(..).then(..)` and, nested inside
that, `void createStoryRequest(..).then(..)`:

* a workspace-creation rejection flows to the outer `.catch` and is logged;
* the `then` callback returns `undefined` (both inner promises are
  discarded with `void`), so the outer chain resolves as soon as the
  callback returns and the outer `.catch` never sees the inner promises:
  a project- or story-creation rejection is an unhandled rejection and is
  not logged by this code;
* the hook callback does not return the promise chain, so the hook itself
  never rejects, and no request is ever issued more than once. -/
def beforeHook (ws proj st : ReqOutcome) : SetupRun :=
  match ws with
  | .error e =>
      { attempts := ["createWorkspaceRequest"]
        logs := [e]
        unhandled := []
        projectSet := false
        storySet := false
        hookRejected := false }
  | .ok _ =>
      match proj with
      | .error e =>
          { attempts := ["createWorkspaceRequest", "createFullProjectInWSRequest"]
            logs := []
            unhandled := [e]
            projectSet := false
            storySet := false
            hookRejected := false }
      | .ok _ =>
          match st with
          | .error e =>
              { attempts := ["createWorkspaceRequest",
                             "createFullProjectInWSRequest",
                             "createStoryRequest"]
                logs := []
                unhandled := [e]
                projectSet := true
                storySet := false
                hookRejected := false }
          | .ok _ =>
              { attempts := ["createWorkspaceRequest",
                             "createFullProjectInWSRequest",
                             "createStoryRequest"]
                logs := []
                unhandled := []
                projectSet := true
                storySet := true
                hookRejected := false }

/-- Static metadata of an `@NgModule` declaration: the lists that appear in
the decorator, by class name, plus the bootstrap list (absent here). -/
structure NgModuleMeta where
  imports : List String
  declarations : List String
  exports : List String
  providers : List String
  bootstrap : List String
  deriving DecidableEq, Repr

/-- The `PendingMembersModule` declaration, translated from the source:
imports `CommonModule`, declares and exports `PendingMembersComponent`,
and nothing else (no providers, no bootstrap, empty class body). -/
def PendingMembersModule : NgModuleMeta :=
  { imports := ["CommonModule"]
    declarations := ["PendingMembersComponent"]
    exports := ["PendingMembersComponent"]
    providers := []
    bootstrap := [] }

/-- Modelled from the spec: the application under test (story-detail view,
inline title editor, optimistic-concurrency conflict engine, kanban board)
is not part of the source tree, only the E2E script that drives it is.
State of the single Story fixture and of the story-detail UI, as the spec
describes them: the server-side title, status and version token; the
version the client's open view is based on; the editor (open flag and
draft text); the conflict-resolution prompt; the cancel- and
delete-confirmation dialogs; the title shown in the detail view; and the
deletion flag. -/
structure AppState where
  serverTitle : String
  serverVersion : Nat
  status : String
  deleted : Bool
  baseVersion : Nat
  editorOpen : Bool
  draft : String
  conflictPrompt : Bool
  cancelConfirmPending : Bool
  deleteConfirmPending : Bool
  displayedTitle : String
  deriving DecidableEq, Repr

/-- A user- or script-initiated action on the application, one per UI hook
or helper the E2E suite uses. -/
inductive Action where
  | clickEditTitle
  | typeTitle (text : String)
  | clickSave
  | clickCancel
  | clickConfirmEdit
  | clickSeeNewVersion
  | clickDismiss
  | clickCopyTitle
  | oobUpdateTitle (text : String)
  | selectStatus (i : Nat)
  | clickDelete
  | clickConfirmDelete
  deriving DecidableEq, Repr

/-- Modelled from the spec: the ordered status names of the kanban board's
columns; the status-selection control lists them in this order, so index 1
corresponds to `ready`. -/
def statusNames : List String := ["new", "ready", "in-progress", "done"]

/-- Modelled from the spec: one application transition per action.
Opening the editor seeds the draft with the displayed title and records
the version the edit is based on; saving commits the draft everywhere
when no other actor has updated the story since, and otherwise detects
the conflict and presents the resolution prompt before any title is
finalized; `see-new-version` loads the server's new version into view;
`dismiss` discards the pending local edit; `copy-title` copies the
conflicting server value into the draft; cancelling asks for
confirmation and, once confirmed, closes the editor leaving the title as
it was; an out-of-band update rewrites the server title and bumps the
version; selecting a status option moves the story to that column; delete
asks for confirmation and, once confirmed, removes the story. -/
def step (s : AppState) : Action → AppState
  | .clickEditTitle =>
      { s with editorOpen := true, draft := s.displayedTitle,
               baseVersion := s.serverVersion }
  | .typeTitle t => { s with draft := t }
  | .clickSave =>
      if s.baseVersion = s.serverVersion then
        { s with serverTitle := s.draft,
                 serverVersion := s.serverVersion + 1,
                 baseVersion := s.serverVersion + 1,
                 displayedTitle := s.draft,
                 editorOpen := false }
      else
        { s with conflictPrompt := true }
  | .clickCancel => { s with cancelConfirmPending := true }
  | .clickConfirmEdit =>
      { s with cancelConfirmPending := false, editorOpen := false,
               draft := s.displayedTitle }
  | .clickSeeNewVersion =>
      { s with displayedTitle := s.serverTitle,
               baseVersion := s.serverVersion }
  | .clickDismiss =>
      { s with conflictPrompt := false, editorOpen := false,
               displayedTitle := s.serverTitle,
               baseVersion := s.serverVersion }
  | .clickCopyTitle => { s with draft := s.serverTitle }
  | .oobUpdateTitle t =>
      { s with serverTitle := t, serverVersion := s.serverVersion + 1 }
  | .selectStatus i => { s with status := statusNames.getD i s.status }
  | .clickDelete => { s with deleteConfirmPending := true }
  | .clickConfirmDelete =>
      { s with deleteConfirmPending := false, deleted := true }

/-- Run a list of actions from a state. -/
def runActions (s : AppState) (as : List Action) : AppState :=
  as.foldl step s

/-- Number of story cards the kanban column named `c` renders for the
suite's single Story fixture: one when the story has that status and is
not deleted, zero otherwise. -/
def cardsIn (c : String) (s : AppState) : Nat :=
  if s.deleted = false ∧ s.status = c then 1 else 0

/-- Text shown on the story's kanban card (the board reflects the
committed server state). -/
def cardText (s : AppState) : String := s.serverTitle

/-- The state the suite's `before` hook establishes: a Story titled `test`
with initial status `new`, nothing edited yet. -/
def initialStory : AppState :=
  { serverTitle := "test"
    serverVersion := 0
    status := "new"
    deleted := false
    baseVersion := 0
    editorOpen := false
    draft := ""
    conflictPrompt := false
    cancelConfirmPending := false
    deleteConfirmPending := false
    displayedTitle := "test" }

/-- Action sequence of the `edit title` test case, translated from the
source: open the editor, clear-and-type the new title, save. -/
def editTitleScenario (newTitle : String) : List Action :=
  [.clickEditTitle, .typeTitle newTitle, .clickSave]

/-- Action sequence of the `edit title cancel` test case, translated from
the source: open the editor, type, cancel, confirm the cancellation. -/
def editTitleCancelScenario (newTitle : String) : List Action :=
  [.clickEditTitle, .typeTitle newTitle, .clickCancel, .clickConfirmEdit]

/-- Action sequence of the `edit title conflict dismiss` test case (the
resolved-request branch), translated from the source: open the editor,
type the local title, let the out-of-band update complete, save,
see-new-version, dismiss. -/
def conflictDismissScenario (newTitle conflictTitle : String) : List Action :=
  [.clickEditTitle, .typeTitle newTitle, .oobUpdateTitle conflictTitle,
   .clickSave, .clickSeeNewVersion, .clickDismiss]

/-- Action sequence of the `edit title conflict copy` test case (the
resolved-request branch), translated from the source: same conflict setup,
then save, copy-title, see-new-version. -/
def conflictCopyScenario (newTitle conflictTitle : String) : List Action :=
  [.clickEditTitle, .typeTitle newTitle, .oobUpdateTitle conflictTitle,
   .clickSave, .clickCopyTitle, .clickSeeNewVersion]

/-- Action sequence of the `update status` test case, translated from the
source: open the status control and select the option at index 1. -/
def updateStatusScenario : List Action := [.selectStatus 1]

/-- Action sequence of the `delete story` test case, translated from the
source: invoke delete, then confirm in the confirmation dialog. -/
def deleteStoryScenario : List Action := [.clickDelete, .clickConfirmDelete]

/-- `needle` occurs as contiguous text inside `hay` (the semantics of the
Cypress `contain.text` assertion). -/
def containsText (hay needle : String) : Prop :=
  needle.data <:+: hay.data

instance (hay needle : String) : Decidable (containsText hay needle) :=
  inferInstanceAs (Decidable (needle.data <:+: hay.data))

/-! ## Theorems settling the claims -/

/-- C1: in the edit-title-conflict-dismiss scenario — local title typed in
the editor, conflicting out-of-band title update completed, save,
see-new-version, dismiss — the final displayed story-detail title equals
the server's conflicting title and, whenever the two titles differ, it is
not the locally typed one. -/
theorem conflict_dismiss_server_title_wins (n c : String) (hne : n ≠ c) :
    (runActions initialStory (conflictDismissScenario n c)).displayedTitle = c ∧
    (runActions initialStory (conflictDismissScenario n c)).displayedTitle ≠ n := by
  refine ⟨?_, ?_⟩ <;>
    simp [runActions, conflictDismissScenario, step, initialStory]
  exact fun h => hne h.symm

/-- Witness for C1 at concrete titles. -/
theorem conflict_dismiss_server_title_wins_witness :
    (runActions initialStory
        (conflictDismissScenario "local title" "remote title")).displayedTitle
      = "remote title" ∧
    (runActions initialStory
        (conflictDismissScenario "local title" "remote title")).displayedTitle
      ≠ "local title" :=
  conflict_dismiss_server_title_wins "local title" "remote title" (by decide)

/-- C2: the edit-title-conflict-copy scenario (save, copy-title,
see-new-version), run from the same conflict setup, ends with the same
displayed story-detail title as the dismiss scenario, namely the server's
conflicting title. -/
theorem conflict_copy_same_end_state (n c : String) :
    (runActions initialStory (conflictCopyScenario n c)).displayedTitle =
      (runActions initialStory (conflictDismissScenario n c)).displayedTitle ∧
    (runActions initialStory (conflictCopyScenario n c)).displayedTitle = c := by
  refine ⟨?_, ?_⟩ <;>
    simp [runActions, conflictCopyScenario, conflictDismissScenario, step,
      initialStory]

/-- C3: in both conflict scenarios, wherever the save click occurs in the
event trace, the resolution of the out-of-band `updateStoryRequest` occurs
strictly earlier: the save never precedes or interleaves with the
conflicting update, whatever the request outcome. -/
theorem save_click_only_after_update_resolved :
    (∀ (n c : String) (o : Bool) (j : Nat),
      (conflictDismissTrace n c o).get? j = some (Ev.click "edit-title-save") →
      ∃ i, i < j ∧ (conflictDismissTrace n c o).get? i
          = some (Ev.requestResolved "updateStoryRequest")) ∧
    (∀ (n c : String) (o : Bool) (j : Nat),
      (conflictCopyTrace n c o).get? j = some (Ev.click "edit-title-save") →
      ∃ i, i < j ∧ (conflictCopyTrace n c o).get? i
          = some (Ev.requestResolved "updateStoryRequest")) := by
  constructor
  · intro n c o j h
    cases o
    · exfalso
      rcases j with _ | _ | _ | _ | _ | j <;>
        simp [conflictDismissTrace] at h
    · rcases j with _ | _ | _ | _ | _ | _ | _ | _ | j <;>
        simp [conflictDismissTrace] at h
      exact ⟨3, by omega, rfl⟩
  · intro n c o j h
    cases o
    · exfalso
      rcases j with _ | _ | _ | _ | _ | j <;>
        simp [conflictCopyTrace] at h
    · rcases j with _ | _ | _ | _ | _ | _ | _ | _ | j <;>
        simp [conflictCopyTrace] at h
      exact ⟨3, by omega, rfl⟩

/-- Witness for C3: in the dismiss trace with the request resolved, the
save click sits at index 4 and a resolution event precedes it. -/
theorem save_click_only_after_update_resolved_witness :
    ∃ i, i < 4 ∧ (conflictDismissTrace "a" "b" true).get? i
        = some (Ev.requestResolved "updateStoryRequest") :=
  save_click_only_after_update_resolved.1 "a" "b" true 4 (by decide)

/-- C4 counterexample: a project-creation failure in the `before` hook is a
fixture-creation failure that is neither caught nor logged — the outer
`.catch(console.error)` never sees it because the inner promise is
discarded with `void`, so its rejection stays unhandled and the console
log stays empty. -/
theorem before_hook_project_failure_not_logged :
    (beforeHook (.ok ()) (.error "project creation failed") (.ok ())).logs
      = [] ∧
    "project creation failed" ∉
      (beforeHook (.ok ()) (.error "project creation failed") (.ok ())).logs ∧
    (beforeHook (.ok ()) (.error "project creation failed") (.ok ())).unhandled
      = ["project creation failed"] := by
  decide

/-- C4 as amended: in the `before` hook a workspace-creation failure is
caught by the outer catch and logged to the console; a project- or
story-creation failure is neither caught nor logged, its rejection left
unhandled; in every case no request is retried (each request name is
attempted at most once) and the hook callback itself never rejects, so
the suite proceeds. -/
theorem before_hook_error_policy (ws proj st : ReqOutcome) :
    (beforeHook ws proj st).attempts.Nodup ∧
    (beforeHook ws proj st).hookRejected = false ∧
    (∀ e, ws = .error e →
      (beforeHook ws proj st).logs = [e] ∧
      (beforeHook ws proj st).unhandled = []) ∧
    (∀ e, ws = .ok () → proj = .error e →
      (beforeHook ws proj st).logs = [] ∧
      (beforeHook ws proj st).unhandled = [e]) ∧
    (∀ e, ws = .ok () → proj = .ok () → st = .error e →
      (beforeHook ws proj st).logs = [] ∧
      (beforeHook ws proj st).unhandled = [e]) := by
  rcases ws with e | u <;> rcases proj with e' | u' <;> rcases st with e'' | u'' <;>
    simp [beforeHook]

/-- Witness for C4 as amended: a workspace-creation failure is logged. -/
theorem before_hook_error_policy_witness :
    (beforeHook (.error "workspace failed") (.ok ()) (.ok ())).logs
      = ["workspace failed"] ∧
    (beforeHook (.error "workspace failed") (.ok ()) (.ok ())).unhandled
      = [] :=
  (before_hook_error_policy (.error "workspace failed") (.ok ()) (.ok ())
    ).2.2.1 "workspace failed" rfl

/-- C5: from any state where the story sits in the `new` column and is not
deleted, the update-status scenario (select the option at index 1, which
is `ready`) leaves exactly one story card in the `ready` column and zero
in the `new` column: the status change moves the card, it does not copy
it. -/
theorem update_status_moves_card (s : AppState)
    (hstat : s.status = "new") (hdel : s.deleted = false) :
    cardsIn "ready" (runActions s updateStatusScenario) = 1 ∧
    cardsIn "new" (runActions s updateStatusScenario) = 0 := by
  refine ⟨?_, ?_⟩ <;>
    simp [runActions, updateStatusScenario, step, cardsIn, statusNames, hdel]

/-- Witness for C5 at the suite's initial story. -/
theorem update_status_moves_card_witness :
    cardsIn "ready" (runActions initialStory updateStatusScenario) = 1 ∧
    cardsIn "new" (runActions initialStory updateStatusScenario) = 0 :=
  update_status_moves_card initialStory rfl rfl

/-- C6: the edit-title-cancel scenario (type a new title, cancel, confirm
the cancellation) leaves both the displayed and the persisted title at
their pre-edit values; in particular, whenever the pre-edit title does
not already contain the discarded text, the displayed title does not
contain it afterwards either. -/
theorem edit_title_cancel_no_residue (s : AppState) (newTitle : String)
    (h : ¬ containsText s.displayedTitle newTitle) :
    (runActions s (editTitleCancelScenario newTitle)).displayedTitle
      = s.displayedTitle ∧
    (runActions s (editTitleCancelScenario newTitle)).serverTitle
      = s.serverTitle ∧
    ¬ containsText
        (runActions s (editTitleCancelScenario newTitle)).displayedTitle
        newTitle := by
  refine ⟨?_, ?_, ?_⟩ <;>
    simp [runActions, editTitleCancelScenario, step]
  exact h

/-- Witness for C6 at the suite's initial story and a concrete discarded
title. -/
theorem edit_title_cancel_no_residue_witness :
    ¬ containsText initialStory.displayedTitle "discarded text" ∧
    ((runActions initialStory
        (editTitleCancelScenario "discarded text")).displayedTitle
          = initialStory.displayedTitle ∧
     (runActions initialStory
        (editTitleCancelScenario "discarded text")).serverTitle
          = initialStory.serverTitle ∧
     ¬ containsText
         (runActions initialStory
           (editTitleCancelScenario "discarded text")).displayedTitle
         "discarded text") :=
  ⟨by decide, edit_title_cancel_no_residue initialStory "discarded text"
    (by decide)⟩

/-- C7: from any state, the edit-title scenario (open editor, type any new
title, save) makes the new title the story-detail title and the kanban
card text alike: the saved title is visible in every rendered view of the
story. -/
theorem edit_title_visible_in_all_views (s : AppState) (newTitle : String) :
    (runActions s (editTitleScenario newTitle)).displayedTitle = newTitle ∧
    cardText (runActions s (editTitleScenario newTitle)) = newTitle := by
  refine ⟨?_, ?_⟩ <;>
    simp [runActions, editTitleScenario, step, cardText]

/-- C8: from any state in which the `ready` column holds exactly one story
card, the delete-story scenario (delete, then confirm in the dialog)
leaves the `ready` column with exactly zero story cards. -/
theorem delete_story_empties_ready (s : AppState)
    (h : cardsIn "ready" s = 1) :
    cardsIn "ready" (runActions s deleteStoryScenario) = 0 := by
  simp [runActions, deleteStoryScenario, step, cardsIn]

/-- The story as the update-status scenario leaves it: in the `ready`
column, not deleted. -/
def readyStory : AppState :=
  { initialStory with status := "ready" }

/-- Witness for C8 at a story sitting in the `ready` column. -/
theorem delete_story_empties_ready_witness :
    cardsIn "ready" readyStory = 1 ∧
    cardsIn "ready" (runActions readyStory deleteStoryScenario) = 0 :=
  ⟨by decide, delete_story_empties_ready readyStory (by decide)⟩

/-- C9: when the out-of-band `updateStoryRequest` rejects, both conflict
scenarios run only up to the request: everything after the rejection is
exactly the one console error message, no title assertion occurs anywhere
in the trace, and no UI click beyond the initial editor opening occurs —
the scenario checks nothing and passes vacuously. -/
theorem conflict_rejected_runs_vacuously (n c : String) :
    ((conflictDismissTrace n c false).drop 3 =
      [Ev.requestRejected "updateStoryRequest",
       Ev.consoleError "updateStoryRequest error"]) ∧
    (∀ sel txt, Ev.assertContains sel txt ∉ conflictDismissTrace n c false) ∧
    (∀ sel, sel ≠ "edit-title" →
      Ev.click sel ∉ conflictDismissTrace n c false) ∧
    ((conflictCopyTrace n c false).drop 3 =
      [Ev.requestRejected "updateStoryRequest",
       Ev.consoleError "updateStoryRequest error"]) ∧
    (∀ sel txt, Ev.assertContains sel txt ∉ conflictCopyTrace n c false) ∧
    (∀ sel, sel ≠ "edit-title" →
      Ev.click sel ∉ conflictCopyTrace n c false) := by
  refine ⟨rfl, ?_, ?_, rfl, ?_, ?_⟩
  · intro sel txt
    simp [conflictDismissTrace]
  · intro sel h
    simp [conflictDismissTrace, h]
  · intro sel txt
    simp [conflictCopyTrace]
  · intro sel h
    simp [conflictCopyTrace, h]

/-- Witness for C9: with the request rejected, the save click never
happens in the dismiss trace. -/
theorem conflict_rejected_runs_vacuously_witness :
    Ev.click "edit-title-save" ∉ conflictDismissTrace "a" "b" false :=
  (conflict_rejected_runs_vacuously "a" "b").2.2.1 "edit-title-save"
    (by decide)

/-- C10: the `PendingMembersModule` declaration declares exactly one
component, exports exactly that same single component, imports exactly
one shared platform module (`CommonModule`), and registers no providers
and no bootstrap entries. -/
theorem pending_members_module_shape :
    PendingMembersModule.declarations = ["PendingMembersComponent"] ∧
    PendingMembersModule.exports = PendingMembersModule.declarations ∧
    PendingMembersModule.exports.length = 1 ∧
    PendingMembersModule.imports = ["CommonModule"] ∧
    PendingMembersModule.imports.length = 1 ∧
    PendingMembersModule.providers = [] ∧
    PendingMembersModule.bootstrap = [] := by
  decide

end Taiga
